import Mathlib

/-!
Shallow embedding of `src/app/main.py` and `src/app/models.py` of the
transaction-base repository: a CRUD HTTP API over a single MongoDB
collection of shareholder documents.

The store is modelled as a list of documents in natural (insertion) order.
A document's `_id` is a BSON value: stored documents carry `ObjectId`
values, while a query may compare `_id` against either an `ObjectId` or a
raw string (as in the empty-payload branch of `update_shareholder`, which
queries `{"_id": id}` with the unconverted string).  The two BSON types
never compare equal, exactly as in MongoDB.
-/

/-- A BSON value usable as an `_id`: an ObjectId (24 hex chars, here the
underlying string) or a plain string.  In BSON an ObjectId never equals a
string. -/
inductive BsonId where
  | oid (s : String)
  | str (s : String)
deriving DecidableEq

/-- A document of the `shareholders` collection.  MongoDB enforces no
schema, so every field other than `_id` may be absent (`none`). -/
structure Doc where
  _id : BsonId
  name : Option String := none
  shares : Option Int := none
  transactions : Option (List Int) := none
deriving DecidableEq

/-- The `shareholders` collection, in natural order. -/
abbrev Store := List Doc

/-- `bson.ObjectId(id)` succeeds exactly on 24-character hex strings. -/
def isHexChar (c : Char) : Bool :=
  c.isDigit || (decide ('a' ≤ c) && decide (c ≤ 'f')) ||
    (decide ('A' ≤ c) && decide (c ≤ 'F'))

/-- Validity of a string as a MongoDB ObjectId. -/
def isValidObjectId (s : String) : Bool :=
  s.data.length == 24 && s.data.all isHexChar

/-- `collection.find_one({"_id": q})`: first document whose `_id` equals
the query value. -/
def find_one : Store → BsonId → Option Doc
  | [], _ => none
  | d :: rest, q => if d._id = q then some d else find_one rest q

/-- `collection.find()` with no filter: every document, natural order. -/
def find (st : Store) : List Doc := st

/-- `cursor.to_list(length=l)`: at most `l` documents, all when `l` is
`None`. -/
def to_list : Option Nat → List Doc → List Doc
  | none, ds => ds
  | some n, ds => ds.take n

/-- `collection.delete_one({"_id": q})`: remove the first matching
document; result is `(deleted_count, new collection)`. -/
def delete_one : Store → BsonId → Nat × Store
  | [], _ => (0, [])
  | d :: rest, q =>
    if d._id = q then (1, rest)
    else
      let r := delete_one rest q
      (r.1, d :: r.2)

/-- `UpdateShareholderModel` of `src/app/models.py`: every field optional,
`None` meaning absent.  The same shape serves as a `$set` document (the
code only ever `$set`s the non-null fields). -/
structure UpdateShareholderModel where
  name : Option String := none
  shares : Option Int := none
  transactions : Option (List Int) := none
deriving DecidableEq

/-- Size of the dict `{k: v for k, v in u.model_dump().items() if v is not
None}`. -/
def UpdateShareholderModel.numFields (u : UpdateShareholderModel) : Nat :=
  (if u.name.isSome then 1 else 0) + (if u.shares.isSome then 1 else 0) +
    (if u.transactions.isSome then 1 else 0)

/-- Apply a `$set` document: every key present in `u` is written, every
absent key keeps its stored value; `_id` is never touched. -/
def applySet (u : UpdateShareholderModel) (d : Doc) : Doc :=
  { d with
    name := match u.name with | some x => some x | none => d.name
    shares := match u.shares with | some x => some x | none => d.shares
    transactions :=
      match u.transactions with | some x => some x | none => d.transactions }

/-- `collection.find_one_and_update({"_id": q}, {"$set": u},
return_document=ReturnDocument.AFTER)`: update the first matching document
in place and return its post-image, or `none` when no document matches. -/
def find_one_and_update : Store → BsonId → UpdateShareholderModel →
    Option Doc × Store
  | [], _, _ => (none, [])
  | d :: rest, q, u =>
    if d._id = q then (some (applySet u d), applySet u d :: rest)
    else
      let r := find_one_and_update rest q u
      (r.1, d :: r.2)

/-- `ShareholderModel` of `src/app/models.py`: the full shareholder shape;
`id` optional on input, the other fields required. -/
structure ShareholderModel where
  id : Option String := none
  name : String
  shares : Int
  transactions : List Int
deriving DecidableEq

/-- An HTTP response produced by a handler. -/
inductive Resp where
  | ok (d : Doc)
  | okList (ds : List Doc)
  | created (d : Doc)
  | noContent
  | notFound (msg : String)
  | serverError
deriving DecidableEq

/-- The HTTP status code of a response. -/
def Resp.statusCode : Resp → Nat
  | .ok _ => 200
  | .okList _ => 200
  | .created _ => 201
  | .noContent => 204
  | .notFound _ => 404
  | .serverError => 500

/-- `GET /shareholders/{id}` (`get_shareholder` in `src/app/main.py`):
`ObjectId(id)` (raising on a malformed id), `find_one`, 200 with the
record or 404. -/
def get_shareholder (st : Store) (i : String) : Resp :=
  if isValidObjectId i then
    match find_one st (BsonId.oid i) with
    | some shareholder => Resp.ok shareholder
    | none => Resp.notFound s!"Shareholder {i} not found"
  else Resp.serverError

/-- `GET /shareholders/` (`get_all_shareholders`):
`collection.find().to_list(length=None)`, returned with 200. -/
def get_all_shareholders (st : Store) : Resp :=
  Resp.okList (to_list none (find st))

/-- `POST /shareholders/` (`create_shareholder`): insert the payload minus
`id` (the store assigns the fresh ObjectId `newId`), re-fetch by the
inserted id, 201 with the fetched record.  A vanished record would make
the handler return `None`, failing response validation. -/
def create_shareholder (st : Store) (shareholder : ShareholderModel)
    (newId : String) : Resp × Store :=
  let doc : Doc :=
    { _id := BsonId.oid newId, name := some shareholder.name,
      shares := some shareholder.shares,
      transactions := some shareholder.transactions }
  let st' := st ++ [doc]
  match find_one st' (BsonId.oid newId) with
  | some created => (Resp.created created, st')
  | none => (Resp.serverError, st')

/-- `DELETE /shareholders/{id}` (`delete_shareholder`): `delete_one`; 204
with no body when `deleted_count == 1`, else 404. -/
def delete_shareholder (st : Store) (i : String) : Resp × Store :=
  if isValidObjectId i then
    let r := delete_one st (BsonId.oid i)
    if r.1 = 1 then (Resp.noContent, r.2)
    else (Resp.notFound s!"Shareholder {i} not found", r.2)
  else (Resp.serverError, st)

/-- `PUT /shareholders/{id}` (`update_shareholder`): drop the null fields;
with at least one field left, `find_one_and_update` by `ObjectId(id)` and
return the post-image (404 when nothing matched); with an empty update,
`find_one({"_id": id})` — the RAW STRING id, exactly as in the source —
and return the match, else 404. -/
def update_shareholder (st : Store) (i : String)
    (shareholder : UpdateShareholderModel) : Resp × Store :=
  if 1 ≤ shareholder.numFields then
    if isValidObjectId i then
      let r := find_one_and_update st (BsonId.oid i) shareholder
      match r.1 with
      | some update_result => (Resp.ok update_result, r.2)
      | none => (Resp.notFound s!"Shareholder {i} not found", r.2)
    else (Resp.serverError, st)
  else
    match find_one st (BsonId.str i) with
    | some existing_shareholder => (Resp.ok existing_shareholder, st)
    | none => (Resp.notFound s!"Shareholder {i} not found", st)

/-- `PUT /shareholders/{id}/transactions` (`append_transaction`), with the
store state given separately at each of the two awaited collection calls
(`st1` at the initial `find_one`, `st2` at the `find_one_and_update`), so
that interleaved operations between the two calls are expressible.  The
sequential handler is the diagonal `st1 = st2`. -/
def append_transaction_from (st1 st2 : Store) (i : String)
    (transaction : Int) : Resp × Store :=
  if isValidObjectId i then
    match find_one st1 (BsonId.oid i) with
    | none => (Resp.notFound s!"Shareholder {i} not found", st2)
    | some shareholder =>
      let updated_transactions :=
        shareholder.transactions.getD [] ++ [transaction]
      let updated_shares := shareholder.shares.getD 0 + transaction
      let r := find_one_and_update st2 (BsonId.oid i)
        { shares := some updated_shares,
          transactions := some updated_transactions }
      match r.1 with
      | some update_result => (Resp.ok update_result, r.2)
      | none => (Resp.notFound s!"Shareholder {i} not found", r.2)
  else (Resp.serverError, st2)

/-- `append_transaction` run uncontended: both collection calls see the
same store. -/
def append_transaction (st : Store) (i : String) (transaction : Int) :
    Resp × Store :=
  append_transaction_from st st i transaction

/-- Number of documents of the store matching an `_id` query (MongoDB's
unique `_id` index makes this 0 or 1 in any reachable store). -/
def countMatch (st : Store) (q : BsonId) : Nat :=
  st.countP (fun d => decide (d._id = q))

/-! ### Sample data used by the concrete witnesses -/

/-- A well-formed ObjectId string. -/
def idA : String := "aaaaaaaaaaaaaaaaaaaaaaaa"

/-- Another well-formed ObjectId string. -/
def idB : String := "bbbbbbbbbbbbbbbbbbbbbbbb"

/-- A fully-populated shareholder document. -/
def aliceDoc : Doc :=
  { _id := BsonId.oid idA, name := some "Alice", shares := some 100,
    transactions := some [100] }

/-- A document lacking both `shares` and `transactions`. -/
def bareDoc : Doc := { _id := BsonId.oid idB, name := some "Bare" }

/-! ### Store lemmas -/

/-- A found document makes `find_one_and_update` return its post-image and
leave it findable under the same query. -/
lemma find_one_and_update_found (st : Store) (q : BsonId)
    (u : UpdateShareholderModel) (d : Doc) (h : find_one st q = some d) :
    (find_one_and_update st q u).1 = some (applySet u d) ∧
      find_one (find_one_and_update st q u).2 q = some (applySet u d) := by
  induction st with
  | nil => simp [find_one] at h
  | cons e rest ih =>
    by_cases he : e._id = q
    · simp only [find_one, he, if_pos, Option.some.injEq] at h
      subst h
      simp [find_one_and_update, he, find_one, applySet]
    · simp only [find_one, he, if_neg, not_false_iff] at h
      have := ih h
      simp [find_one_and_update, he, find_one, this.1, this.2]

/-- `find_one_and_update` matches nothing exactly when `find_one` finds
nothing. -/
lemma find_one_and_update_none (st : Store) (q : BsonId)
    (u : UpdateShareholderModel) :
    (find_one_and_update st q u).1 = none ↔ find_one st q = none := by
  induction st with
  | nil => simp [find_one_and_update, find_one]
  | cons e rest ih =>
    by_cases he : e._id = q
    · simp [find_one_and_update, find_one, he]
    · simp [find_one_and_update, find_one, he, ih]

/-- `find_one` fails exactly on stores with no matching document. -/
lemma find_one_none_iff (st : Store) (q : BsonId) :
    find_one st q = none ↔ countMatch st q = 0 := by
  induction st with
  | nil => simp [find_one, countMatch]
  | cons e rest ih =>
    by_cases he : e._id = q
    · simp [find_one, countMatch, he, List.countP_cons]
    · simpa [find_one, countMatch, he, List.countP_cons] using ih

/-- With no matching document, `delete_one` deletes nothing and keeps the
store. -/
lemma delete_one_of_no_match (st : Store) (q : BsonId)
    (h : countMatch st q = 0) : delete_one st q = (0, st) := by
  induction st with
  | nil => simp [delete_one]
  | cons e rest ih =>
    simp only [countMatch, List.countP_cons] at h
    by_cases he : e._id = q
    · simp [he] at h
    · have h' : countMatch rest q = 0 := by
        simpa [countMatch, he] using h
      simp [delete_one, he, ih h']

/-- With a matching document, `delete_one` reports one deletion and
removes exactly one match. -/
lemma delete_one_of_match (st : Store) (q : BsonId)
    (h : countMatch st q ≠ 0) :
    (delete_one st q).1 = 1 ∧
      countMatch (delete_one st q).2 q = countMatch st q - 1 := by
  induction st with
  | nil => simp [countMatch] at h
  | cons e rest ih =>
    by_cases he : e._id = q
    · simp [delete_one, he, countMatch, List.countP_cons]
    · have h' : countMatch rest q ≠ 0 := by
        simpa [countMatch, List.countP_cons, he] using h
      have := ih h'
      constructor
      · simpa [delete_one, he] using this.1
      · simpa [delete_one, he, countMatch, List.countP_cons] using this.2

/-- Appending a matching document to a store with no match makes it the
one `find_one` returns. -/
lemma find_one_append (st : Store) (q : BsonId) (e : Doc)
    (h : find_one st q = none) (he : e._id = q) :
    find_one (st ++ [e]) q = some e := by
  induction st with
  | nil => simp [find_one, he]
  | cons f rest ih =>
    by_cases hf : f._id = q
    · simp [find_one, hf] at h
    · simp only [List.cons_append, find_one, hf, if_neg, not_false_iff]
        at h ⊢
      exact ih h

/-- On a found document, `append_transaction` returns the `$set`
post-image built from the document's (defaulted) `shares` and
`transactions`. -/
lemma append_transaction_found (st : Store) (i : String) (v : Int) (d : Doc)
    (hv : isValidObjectId i = true)
    (hf : find_one st (BsonId.oid i) = some d) :
    append_transaction st i v =
      (Resp.ok (applySet
          { name := none, shares := some (d.shares.getD 0 + v),
            transactions := some (d.transactions.getD [] ++ [v]) } d),
        (find_one_and_update st (BsonId.oid i)
          { name := none, shares := some (d.shares.getD 0 + v),
            transactions := some (d.transactions.getD [] ++ [v]) }).2) := by
  have h := (find_one_and_update_found st (BsonId.oid i)
    { name := none, shares := some (d.shares.getD 0 + v),
      transactions := some (d.transactions.getD [] ++ [v]) } d hf).1
  simp [append_transaction, append_transaction_from, hv, hf, h]

/-! ### Claim theorems -/

/-- C1 (code bug evidence): with the shareholder `aliceDoc` present in the
store under its id, a partial update whose payload has no non-null fields
returns 404 (leaving the store unchanged), although `find_one` by the
ObjectId succeeds — the empty-payload branch of `update_shareholder`
queries `{"_id": id}` with the raw string id, which never matches a stored
ObjectId. -/
theorem update_shareholder_empty_payload_404_despite_present :
    find_one [aliceDoc] (BsonId.oid idA) = some aliceDoc ∧
      (update_shareholder [aliceDoc] idA
        (UpdateShareholderModel.mk none none none)).1.statusCode = 404 ∧
      (update_shareholder [aliceDoc] idA
        (UpdateShareholderModel.mk none none none)).2 = [aliceDoc] := by
  decide

/-- C2: a single uncontended append-transaction call on the id of a stored
record with shares `s` and transactions `ts` yields the record with shares
`s + v` and transactions `ts ++ [v]`. -/
theorem append_transaction_single_caller_arithmetic (st : Store)
    (i : String) (v : Int) (d : Doc) (s : Int) (ts : List Int)
    (hv : isValidObjectId i = true)
    (hf : find_one st (BsonId.oid i) = some d)
    (hs : d.shares = some s) (ht : d.transactions = some ts) :
    ∃ st', append_transaction st i v =
      (Resp.ok { d with
          shares := some (s + v),
          transactions := some (ts ++ [v]) }, st') := by
  refine ⟨(find_one_and_update st (BsonId.oid i)
    { name := none, shares := some (d.shares.getD 0 + v),
      transactions := some (d.transactions.getD [] ++ [v]) }).2, ?_⟩
  rw [append_transaction_found st i v d hv hf]
  simp [applySet, hs, ht]

/-- C2 witness: appending `-20` to Alice (shares 100, transactions [100])
returns shares `100 + (-20)` and transactions `[100] ++ [-20]`. -/
theorem append_transaction_single_caller_arithmetic_witness :
    isValidObjectId idA = true ∧
      ∃ st', append_transaction [aliceDoc] idA (-20) =
        (Resp.ok { aliceDoc with
            shares := some (100 + (-20)),
            transactions := some ([100] ++ [(-20 : Int)]) }, st') :=
  ⟨by decide, append_transaction_single_caller_arithmetic [aliceDoc] idA
    (-20) aliceDoc 100 [100] (by decide) (by decide) rfl rfl⟩

/-- C3: a successful append-transaction call leaves the difference
`shares - sum transactions` of the record unchanged (fields defaulting to
0 and [] as in the handler). -/
theorem append_transaction_preserves_baseline (st : Store) (i : String)
    (v : Int) (d : Doc) (hv : isValidObjectId i = true)
    (hf : find_one st (BsonId.oid i) = some d) :
    ∃ d' st', append_transaction st i v = (Resp.ok d', st') ∧
      d'.shares.getD 0 - (d'.transactions.getD []).sum =
        d.shares.getD 0 - (d.transactions.getD []).sum := by
  refine ⟨applySet
      { name := none, shares := some (d.shares.getD 0 + v),
        transactions := some (d.transactions.getD [] ++ [v]) } d,
    (find_one_and_update st (BsonId.oid i)
      { name := none, shares := some (d.shares.getD 0 + v),
        transactions := some (d.transactions.getD [] ++ [v]) }).2,
    append_transaction_found st i v d hv hf, ?_⟩
  simp only [applySet, Option.getD_some, List.sum_append, List.sum_cons,
    List.sum_nil]
  omega

/-- C3 witness: appending 5 to Alice preserves her baseline. -/
theorem append_transaction_preserves_baseline_witness :
    isValidObjectId idA = true ∧
      ∃ d' st', append_transaction [aliceDoc] idA 5 = (Resp.ok d', st') ∧
        d'.shares.getD 0 - (d'.transactions.getD []).sum =
          aliceDoc.shares.getD 0 - (aliceDoc.transactions.getD []).sum :=
  ⟨by decide, append_transaction_preserves_baseline [aliceDoc] idA 5
    aliceDoc (by decide) (by decide)⟩

/-- C4: a partial update with at least one non-null field returns 200 with
the post-image in which exactly the non-null payload fields are written:
every field that is null/absent in the payload keeps its stored value,
`_id` included, and the post-image is what the store then holds under the
id. -/
theorem update_shareholder_writes_only_non_null_fields (st : Store)
    (i : String) (u : UpdateShareholderModel) (d : Doc)
    (hv : isValidObjectId i = true) (hn : 1 ≤ u.numFields)
    (hf : find_one st (BsonId.oid i) = some d) :
    ∃ d' st', update_shareholder st i u = (Resp.ok d', st') ∧
      d'._id = d._id ∧
      (u.name = none → d'.name = d.name) ∧
      (u.name ≠ none → d'.name = u.name) ∧
      (u.shares = none → d'.shares = d.shares) ∧
      (u.shares ≠ none → d'.shares = u.shares) ∧
      (u.transactions = none → d'.transactions = d.transactions) ∧
      (u.transactions ≠ none → d'.transactions = u.transactions) ∧
      find_one st' (BsonId.oid i) = some d' := by
  have h := find_one_and_update_found st (BsonId.oid i) u d hf
  refine ⟨applySet u d, (find_one_and_update st (BsonId.oid i) u).2,
    ?_, rfl, ?_, ?_, ?_, ?_, ?_, ?_, h.2⟩
  · simp [update_shareholder, hn, hv, h.1]
  · intro hx; simp [applySet, hx]
  · intro hx
    cases hy : u.name with
    | none => exact absurd hy hx
    | some x => simp [applySet, hy]
  · intro hx; simp [applySet, hx]
  · intro hx
    cases hy : u.shares with
    | none => exact absurd hy hx
    | some x => simp [applySet, hy]
  · intro hx; simp [applySet, hx]
  · intro hx
    cases hy : u.transactions with
    | none => exact absurd hy hx
    | some x => simp [applySet, hy]

/-- C4 witness: updating Alice with payload `{name: "Bob"}` rewrites only
`name`; `shares`, `transactions` and `_id` keep their stored values. -/
theorem update_shareholder_writes_only_non_null_fields_witness :
    1 ≤ (UpdateShareholderModel.mk (some "Bob") none none).numFields ∧
      ∃ d' st', update_shareholder [aliceDoc] idA
          (UpdateShareholderModel.mk (some "Bob") none none) =
            (Resp.ok d', st') ∧
        d'._id = aliceDoc._id ∧
        ((UpdateShareholderModel.mk (some "Bob") none none).name = none →
          d'.name = aliceDoc.name) ∧
        ((UpdateShareholderModel.mk (some "Bob") none none).name ≠ none →
          d'.name = (UpdateShareholderModel.mk (some "Bob") none none).name) ∧
        ((UpdateShareholderModel.mk (some "Bob") none none).shares = none →
          d'.shares = aliceDoc.shares) ∧
        ((UpdateShareholderModel.mk (some "Bob") none none).shares ≠ none →
          d'.shares =
            (UpdateShareholderModel.mk (some "Bob") none none).shares) ∧
        ((UpdateShareholderModel.mk (some "Bob") none none).transactions =
            none → d'.transactions = aliceDoc.transactions) ∧
        ((UpdateShareholderModel.mk (some "Bob") none none).transactions ≠
            none → d'.transactions =
              (UpdateShareholderModel.mk (some "Bob") none none).transactions) ∧
        find_one st' (BsonId.oid idA) = some d' :=
  ⟨by decide, update_shareholder_writes_only_non_null_fields [aliceDoc] idA
    (UpdateShareholderModel.mk (some "Bob") none none) aliceDoc (by decide)
    (by decide) (by decide)⟩

/-- C5: with exactly one stored record under the id, the first delete call
returns 204 with no body and removes the record, and a second delete call
on the resulting store returns 404. -/
theorem delete_twice_first_204_then_404 (st : Store) (i : String)
    (hv : isValidObjectId i = true)
    (hc : countMatch st (BsonId.oid i) = 1) :
    ∃ st', delete_shareholder st i = (Resp.noContent, st') ∧
      find_one st' (BsonId.oid i) = none ∧
      delete_shareholder st' i =
        (Resp.notFound s!"Shareholder {i} not found", st') := by
  have h1 := delete_one_of_match st (BsonId.oid i) (by omega)
  have hc' : countMatch (delete_one st (BsonId.oid i)).2 (BsonId.oid i)
      = 0 := by
    rw [h1.2, hc]
  have h2 := delete_one_of_no_match (delete_one st (BsonId.oid i)).2
    (BsonId.oid i) hc'
  refine ⟨(delete_one st (BsonId.oid i)).2, ?_, ?_, ?_⟩
  · simp [delete_shareholder, hv, h1.1]
  · rw [find_one_none_iff]
    exact hc'
  · simp [delete_shareholder, hv, h2]

/-- C5 witness: deleting Alice twice gives 204 then 404. -/
theorem delete_twice_first_204_then_404_witness :
    countMatch [aliceDoc] (BsonId.oid idA) = 1 ∧
      ∃ st', delete_shareholder [aliceDoc] idA = (Resp.noContent, st') ∧
        find_one st' (BsonId.oid idA) = none ∧
        delete_shareholder st' idA =
          (Resp.notFound s!"Shareholder {idA} not found", st') :=
  ⟨by decide, delete_twice_first_204_then_404 [aliceDoc] idA (by decide)
    (by decide)⟩

/-- C6: for a well-formed id, get-by-id answers 200 with exactly the
stored record when one exists, and 404 exactly when none exists. -/
theorem get_shareholder_200_iff_present_404_iff_absent (st : Store)
    (i : String) (hv : isValidObjectId i = true) :
    (∀ d, get_shareholder st i = Resp.ok d ↔
      find_one st (BsonId.oid i) = some d) ∧
    ((get_shareholder st i).statusCode = 404 ↔
      find_one st (BsonId.oid i) = none) := by
  cases hf : find_one st (BsonId.oid i) with
  | none => simp [get_shareholder, hv, hf, Resp.statusCode]
  | some d => simp [get_shareholder, hv, hf, Resp.statusCode]

/-- C6 witness: on the store holding only Alice, get-by-id with her id
answers 200 with her record and not 404. -/
theorem get_shareholder_200_iff_present_404_iff_absent_witness :
    isValidObjectId idA = true ∧
      ((∀ d, get_shareholder [aliceDoc] idA = Resp.ok d ↔
        find_one [aliceDoc] (BsonId.oid idA) = some d) ∧
      ((get_shareholder [aliceDoc] idA).statusCode = 404 ↔
        find_one [aliceDoc] (BsonId.oid idA) = none)) :=
  ⟨by decide, get_shareholder_200_iff_present_404_iff_absent [aliceDoc]
    idA (by decide)⟩

/-- C7: get-all never fails: on every store it returns 200 with the full
sequence of stored records, the empty store giving the empty sequence. -/
theorem get_all_shareholders_never_fails (st : Store) :
    get_all_shareholders st = Resp.okList st ∧
      (get_all_shareholders st).statusCode = 200 ∧
      get_all_shareholders [] = Resp.okList [] := by
  simp [get_all_shareholders, to_list, find, Resp.statusCode]

/-- C8: creating a shareholder under a fresh store-assigned id returns 201
with a record carrying the new id and the payload's name, shares and
transactions, and an immediate get-by-id on that id returns the same
record. -/
theorem create_then_get_round_trip (st : Store) (sh : ShareholderModel)
    (newId : String) (hv : isValidObjectId newId = true)
    (hfresh : find_one st (BsonId.oid newId) = none) :
    ∃ d st', create_shareholder st sh newId = (Resp.created d, st') ∧
      d._id = BsonId.oid newId ∧ d.name = some sh.name ∧
      d.shares = some sh.shares ∧ d.transactions = some sh.transactions ∧
      get_shareholder st' newId = Resp.ok d := by
  have hfind := find_one_append st (BsonId.oid newId)
    { _id := BsonId.oid newId, name := some sh.name,
      shares := some sh.shares, transactions := some sh.transactions }
    hfresh rfl
  refine ⟨{ _id := BsonId.oid newId, name := some sh.name,
            shares := some sh.shares,
            transactions := some sh.transactions },
    st ++ [{ _id := BsonId.oid newId, name := some sh.name,
             shares := some sh.shares,
             transactions := some sh.transactions }],
    ?_, rfl, rfl, rfl, rfl, ?_⟩
  · simp [create_shareholder, hfind]
  · simp [get_shareholder, hv, hfind]

/-- C8 witness: creating Alice in the empty store under a fresh id and
fetching her immediately gives back the same field values plus the id. -/
theorem create_then_get_round_trip_witness :
    isValidObjectId idA = true ∧
      ∃ d st', create_shareholder []
          (ShareholderModel.mk none "Alice" 100 [100]) idA =
            (Resp.created d, st') ∧
        d._id = BsonId.oid idA ∧
        d.name = some (ShareholderModel.mk none "Alice" 100 [100]).name ∧
        d.shares = some (ShareholderModel.mk none "Alice" 100 [100]).shares ∧
        d.transactions =
          some (ShareholderModel.mk none "Alice" 100 [100]).transactions ∧
        get_shareholder st' idA = Resp.ok d :=
  ⟨by decide, create_then_get_round_trip []
    (ShareholderModel.mk none "Alice" 100 [100]) idA (by decide)
    (by decide)⟩

/-- C9: append-transaction checks for the record's absence at both of its
two collection calls — the initial fetch (store state `st1`) and the
subsequent update (store state `st2`) — and answers 404 exactly when
either check finds no record under the id. -/
theorem append_transaction_404_iff_either_check_fails (st1 st2 : Store)
    (i : String) (v : Int) (hv : isValidObjectId i = true) :
    (append_transaction_from st1 st2 i v).1.statusCode = 404 ↔
      (find_one st1 (BsonId.oid i) = none ∨
        find_one st2 (BsonId.oid i) = none) := by
  cases hf1 : find_one st1 (BsonId.oid i) with
  | none => simp [append_transaction_from, hv, hf1, Resp.statusCode]
  | some d =>
    cases hf2 : find_one st2 (BsonId.oid i) with
    | none =>
      have h := (find_one_and_update_none st2 (BsonId.oid i)
        { name := none, shares := some (d.shares.getD 0 + v),
          transactions := some (d.transactions.getD [] ++ [v]) }).2 hf2
      simp [append_transaction_from, hv, hf1, hf2, h, Resp.statusCode]
    | some e =>
      have h := (find_one_and_update_found st2 (BsonId.oid i)
        { name := none, shares := some (d.shares.getD 0 + v),
          transactions := some (d.transactions.getD [] ++ [v]) } e hf2).1
      simp [append_transaction_from, hv, hf1, hf2, h, Resp.statusCode]

/-- C9 witness: with Alice present at the fetch but the store emptied
before the update, append-transaction answers 404 (the second, redundant
check fires). -/
theorem append_transaction_404_iff_either_check_fails_witness :
    isValidObjectId idA = true ∧
      ((append_transaction_from [aliceDoc] [] idA 1).1.statusCode = 404 ↔
        (find_one [aliceDoc] (BsonId.oid idA) = none ∨
          find_one [] (BsonId.oid idA) = none)) :=
  ⟨by decide, append_transaction_404_iff_either_check_fails [aliceDoc] []
    idA 1 (by decide)⟩

/-- C10: append-transaction does not fail on a stored document lacking
`transactions` or `shares`: it defaults them to `[]` and `0`, answering
200 with `transactions = [v]` and/or `shares = v`. -/
theorem append_transaction_defaults_missing_fields (st : Store)
    (i : String) (v : Int) (d : Doc) (hv : isValidObjectId i = true)
    (hf : find_one st (BsonId.oid i) = some d) :
    ∃ d' st', append_transaction st i v = (Resp.ok d', st') ∧
      (d.transactions = none → d'.transactions = some [v]) ∧
      (d.shares = none → d'.shares = some v) := by
  refine ⟨applySet
      { name := none, shares := some (d.shares.getD 0 + v),
        transactions := some (d.transactions.getD [] ++ [v]) } d,
    (find_one_and_update st (BsonId.oid i)
      { name := none, shares := some (d.shares.getD 0 + v),
        transactions := some (d.transactions.getD [] ++ [v]) }).2,
    append_transaction_found st i v d hv hf, ?_, ?_⟩
  · intro hx
    simp [applySet, hx]
  · intro hx
    simp [applySet, hx]

/-- C10 witness: appending 7 to a stored document lacking both `shares`
and `transactions` answers 200 with transactions `[7]` and shares `7`. -/
theorem append_transaction_defaults_missing_fields_witness :
    isValidObjectId idB = true ∧
      ∃ d' st', append_transaction [bareDoc] idB 7 = (Resp.ok d', st') ∧
        (bareDoc.transactions = none → d'.transactions = some [7]) ∧
        (bareDoc.shares = none → d'.shares = some 7) :=
  ⟨by decide, append_transaction_defaults_missing_fields [bareDoc] idB 7
    bareDoc (by decide) (by decide)⟩
